import Mathlib

/-!
Verification of the design_mirror pan/tilt control system.

The development shallowly embeds the Python sources:
  modules/processing.py   (target selection, frame transform, angle mapping)
  modules/pan_tilt.py     (unit registry, per-unit computation, batched message)
  pi/mqtt_subscriber.py   (message decoding and dispatch)
  pi/wave_test.py         (smooth motion interpolation)
Real-valued quantities are modelled over the reals; the smooth-motion
interpolation, whose claims are about exact arithmetic identities, is
modelled over the rationals.
-/

namespace DesignMirror

/-! ## Smooth motion driver (pi/wave_test.py, smooth_transition) -/

/-- One write of set_servo_angle (pi/servo_controller.py): the angle is
clamped into the closed range 0..180 before being written to hardware. -/
def set_servo_angle_clamp (angle : ℚ) : ℚ :=
  max 0 (min 180 angle)

/-- The micro-step count computed by smooth_transition: for each servo the
floor division of the absolute angular distance by the step size, the
maximum over all pan and all tilt servos, replaced by 1 when it is 0
(the Python phrase int(...) or 1). The Python max call raises on an empty
sequence, so an empty pan list or an empty tilt list yields no count. -/
def smoothMaxSteps (panCurs tiltCurs : List ℚ) (targetPan targetTilt step : ℚ) :
    Option ℤ :=
  match (panCurs.map fun c => ⌊|c - targetPan| / step⌋).max?,
        (tiltCurs.map fun c => ⌊|c - targetTilt| / step⌋).max? with
  | some a, some b => some (if max a b = 0 then 1 else max a b)
  | _, _ => none

/-- The sequence of angles smooth_transition writes to one servo whose
current angle is cur and whose target is target, when the loop runs for
n micro-steps: at micro-step i (counted from 1) it writes
cur + (target - cur) * (i / n), clamped by set_servo_angle. -/
def smooth_transition_writes (cur target : ℚ) (n : ℕ) : List ℚ :=
  (List.range n).map fun k =>
    set_servo_angle_clamp (cur + (target - cur) * ((k + 1 : ℚ) / (n : ℚ)))

/-! ## Subscriber dispatch (pi/mqtt_subscriber.py, on_message) -/

/-- One decoded unit entry of an incoming message. A field is none when it
is missing from the JSON object (the Python dict lookup then raises
KeyError, which the surrounding handler catches). -/
structure UnitMsg where
  unit : Option String
  i2c_id : Option ℕ
  motors_id : Option (List ℕ)
  pan : Option ℚ
  tilt : Option ℚ

/-- One servo-target tuple handed to the servo controller. -/
structure ServoCmd where
  i2c_id : ℕ
  motor_id : ℕ
  angle : ℚ

/-- The servos_data list built by the loop in on_message. Any missing field
of any unit entry (or a motors_id list shorter than two entries) raises
inside the loop, so the whole extraction fails and nothing at all is
produced; otherwise every unit contributes the pan command for channel
motors_id[0] followed by the tilt command for channel motors_id[1]. -/
def extract_servos_data : List UnitMsg → Option (List ServoCmd)
  | [] => some []
  | u :: rest =>
    match u.unit, u.i2c_id, u.motors_id, u.pan, u.tilt with
    | some _name, some i2c, some motors, some pan, some tilt =>
      match motors.get? 0, motors.get? 1, extract_servos_data rest with
      | some m0, some m1, some tail =>
        some (⟨i2c, m0, pan⟩ :: ⟨i2c, m1, tilt⟩ :: tail)
      | _, _, _ => none
    | _, _, _, _, _ => none

/-- The outcome of on_message. The payload is none when json.loads fails
(malformed JSON), otherwise it is the decoded list of unit entries. The
result is the list of servo commands dispatched to
move_multiple_servos, or none when nothing is dispatched: the whole
handler body runs inside one try block, so any failure while building
servos_data drops the entire message, and an empty servos_data list is
not dispatched either. -/
def on_message (payload : Option (List UnitMsg)) : Option (List ServoCmd) :=
  match payload with
  | none => none
  | some units =>
    match extract_servos_data units with
    | none => none
    | some servos_data => match servos_data with
      | [] => none
      | l => some l

/-- A unit entry is malformed when one of the required fields is missing. -/
def UnitMsg.malformed (u : UnitMsg) : Prop :=
  u.unit = none ∨ u.i2c_id = none ∨ u.motors_id = none ∨
    u.pan = none ∨ u.tilt = none

/-! ## Target selection (modules/processing.py, get_closest_face) -/

/-- The Euclidean distance from the sensor origin computed inside the loop
of get_closest_face: sqrt of x squared plus y squared plus z squared. -/
noncomputable def faceDistance (f : ℝ × ℝ × ℝ) : ℝ :=
  Real.sqrt (f.1 ^ 2 + f.2.1 ^ 2 + f.2.2 ^ 2)

open scoped Classical in
/-- One iteration of the loop of get_closest_face. The state carries the
running minimum distance (none plays the role of the initial float inf,
which every real distance strictly undercuts) and the current closest
face. The update fires exactly when the strict comparison
distance less-than min_distance holds. -/
noncomputable def closest_face_step (acc : Option ℝ × Option (ℝ × ℝ × ℝ))
    (face : ℝ × ℝ × ℝ) : Option ℝ × Option (ℝ × ℝ × ℝ) :=
  match acc.1 with
  | none => (some (faceDistance face), some face)
  | some m =>
    if faceDistance face < m then (some (faceDistance face), some face) else acc

/-- get_closest_face: none on an empty input, otherwise the closest face
found by folding the loop body over the list with the initial state
min_distance equal to inf and closest_face equal to none. -/
noncomputable def get_closest_face (l : List (ℝ × ℝ × ℝ)) : Option (ℝ × ℝ × ℝ) :=
  match l with
  | [] => none
  | _ :: _ => (l.foldl closest_face_step (none, none)).2

/-- The point x is the first element of l attaining the minimum Euclidean
distance from the origin: it attains the global minimum and every
element listed before it lies strictly farther away. -/
def IsFirstMin (l : List (ℝ × ℝ × ℝ)) (x : ℝ × ℝ × ℝ) : Prop :=
  (∀ y ∈ l, faceDistance x ≤ faceDistance y) ∧
    ∃ pre post, l = pre ++ x :: post ∧ ∀ y ∈ pre, faceDistance x < faceDistance y

/-! ## Frame transform engine (modules/processing.py) -/

/-- transform_target_realsense_to_ro: negate x and y, keep z. -/
def transform_target_realsense_to_ro (v : Fin 3 → ℝ) : Fin 3 → ℝ :=
  ![-(v 0), -(v 1), v 2]

/-- np.radians: degrees to radians. -/
noncomputable def radians (x : ℝ) : ℝ := x * (Real.pi / 180)

/-- math.degrees: radians to degrees. -/
noncomputable def degrees (x : ℝ) : ℝ := x * (180 / Real.pi)

/-- The roll factor built by euler_to_rotation_matrix. -/
noncomputable def R_x (r : ℝ) : Matrix (Fin 3) (Fin 3) ℝ :=
  !![1, 0, 0;
     0, Real.cos r, -Real.sin r;
     0, Real.sin r, Real.cos r]

/-- The pitch factor built by euler_to_rotation_matrix. -/
noncomputable def R_y (p : ℝ) : Matrix (Fin 3) (Fin 3) ℝ :=
  !![Real.cos p, 0, Real.sin p;
     0, 1, 0;
     -Real.sin p, 0, Real.cos p]

/-- The yaw factor built by euler_to_rotation_matrix. -/
noncomputable def R_z (y : ℝ) : Matrix (Fin 3) (Fin 3) ℝ :=
  !![Real.cos y, -Real.sin y, 0;
     Real.sin y, Real.cos y, 0;
     0, 0, 1]

/-- euler_to_rotation_matrix: convert the three Euler angles from degrees
to radians and return the product R_z times R_y times R_x. -/
noncomputable def euler_to_rotation_matrix (roll pitch yaw : ℝ) :
    Matrix (Fin 3) (Fin 3) ℝ :=
  R_z (radians yaw) * R_y (radians pitch) * R_x (radians roll)

/-- transform_to_unit_frame: subtract the unit position from the target and
multiply by the transpose of the unit rotation matrix. The orientation
vector carries roll, pitch and yaw in this order, as unpacked by the
Python star argument. -/
noncomputable def transform_to_unit_frame (target_position unit_position
    unit_orientation : Fin 3 → ℝ) : Fin 3 → ℝ :=
  (euler_to_rotation_matrix (unit_orientation 0) (unit_orientation 1)
      (unit_orientation 2)).transpose.mulVec
    (target_position - unit_position)

/-- math.atan2 on the reals, following the C convention the Python library
implements: the angle of the point (x, y) in the range from minus pi
exclusive to pi inclusive, with atan2 0 0 equal to 0. -/
noncomputable def atan2 (y x : ℝ) : ℝ :=
  if 0 < x then Real.arctan (y / x)
  else if x < 0 then
    (if 0 ≤ y then Real.arctan (y / x) + Real.pi
     else Real.arctan (y / x) - Real.pi)
  else
    (if 0 < y then Real.pi / 2 else if y < 0 then -(Real.pi / 2) else 0)

/-- compute_pan_tilt_angles: pan is atan2 of x over z, tilt is atan2 of y
over the horizontal norm, both converted to degrees. -/
noncomputable def compute_pan_tilt_angles (v : Fin 3 → ℝ) : ℝ × ℝ :=
  (degrees (atan2 (v 0) (v 2)),
   degrees (atan2 (v 1) (Real.sqrt ((v 0) ^ 2 + (v 2) ^ 2))))

/-! ## Safety clamp and servo mapping (modules/processing.py) -/

/-- apply_safety_limits: clamp the angle into the configured range. -/
noncomputable def apply_safety_limits (angle min_angle max_angle : ℝ) : ℝ :=
  max min_angle (min max_angle angle)

/-- map_to_servo_range: shift by 90 degrees. -/
noncomputable def map_to_servo_range (angle : ℝ) : ℝ := angle + 90

/-- transform_angle_to_servo: clamp, then shift into the servo domain. -/
noncomputable def transform_angle_to_servo (angle min_angle max_angle : ℝ) : ℝ :=
  map_to_servo_range (apply_safety_limits angle min_angle max_angle)

/-! ## Unit registry and batched message (modules/pan_tilt.py) -/

/-- PanTiltUnit: the static calibration record. The bounds are optional
because the manager constructor defaults them to the Python value None. -/
structure PanTiltUnit where
  name : String
  position : Fin 3 → ℝ
  orientation : Fin 3 → ℝ
  i2c_id : Option ℕ
  motors_id : Option (List ℕ)
  angle_min : Option ℝ
  angle_max : Option ℝ

/-- PanTiltUnit.compute_angles. With numeric bounds the computation runs the
transform pipeline and maps both angles to the servo domain. When a bound
is the Python value None, the max call inside apply_safety_limits raises
TypeError; the surrounding except branch catches it and returns the pair
None, None, modelled by the pair of none results. -/
noncomputable def PanTiltUnit.compute_angles (u : PanTiltUnit)
    (target_position : Fin 3 → ℝ) : Option ℝ × Option ℝ :=
  match u.angle_min, u.angle_max with
  | some mn, some mx =>
    (some (transform_angle_to_servo
        (compute_pan_tilt_angles
          (transform_to_unit_frame target_position u.position u.orientation)).1
        mn mx),
     some (transform_angle_to_servo
        (compute_pan_tilt_angles
          (transform_to_unit_frame target_position u.position u.orientation)).2
        mn mx))
  | _, _ => (none, none)

/-- One unit entry of the published all-angles message. -/
structure UnitData where
  unit : String
  i2c_id : Option ℕ
  motors_id : Option (List ℕ)
  pan : ℝ
  tilt : ℝ

/-- The published MQTT message: the list of per-unit entries. -/
structure ControlMessage where
  units : List UnitData

/-- The body of the collection loop of compute_and_send_all_angles: a unit
contributes an entry exactly when compute_angles produced two numeric
angles, the condition the loop checks before appending. -/
noncomputable def unitEntry (u : PanTiltUnit) (target_position : Fin 3 → ℝ) :
    Option UnitData :=
  match u.compute_angles target_position with
  | (some p, some t) => some ⟨u.name, u.i2c_id, u.motors_id, p, t⟩
  | _ => none

/-- PanTiltUnitManager.compute_and_send_all_angles: transform the target out
of the sensor frame once, collect an entry for every unit whose
computation produced both angles, and publish a message exactly when the
collected list is non-empty (none models the case where nothing is
published). -/
noncomputable def compute_and_send_all_angles (units : List PanTiltUnit)
    (target_rs : Fin 3 → ℝ) : Option ControlMessage :=
  let target_position := transform_target_realsense_to_ro target_rs
  let all_angles := units.filterMap fun u => unitEntry u target_position
  match all_angles with
  | [] => none
  | l => some ⟨l⟩

/-- A unit succeeds for a target exactly when compute_angles returns two
numeric angles, which is the condition the manager loop checks before
appending the entry. -/
def unitSucceeds (u : PanTiltUnit) (target_position : Fin 3 → ℝ) : Prop :=
  (u.compute_angles target_position).1.isSome = true ∧
    (u.compute_angles target_position).2.isSome = true

/-! ## Registry construction (modules/pan_tilt.py, PanTiltUnitManager) -/

/-- One record of the units_config list handed to the manager constructor.
The fields looked up with square brackets are required: when absent the
lookup raises KeyError. The fields looked up with the get method default
to None and never raise. -/
structure UnitConf where
  name : Option String
  position : Option (Fin 3 → ℝ)
  orientation : Option (Fin 3 → ℝ)
  i2c_id : Option ℕ
  motors_id : Option (List ℕ)

/-- The registry the manager constructor builds: each record whose required
fields are all present yields a unit carrying the manager-wide bounds;
a record with a missing required field raises inside its try block, is
logged and skipped, and every other record still registers. No
validation of the bounds happens anywhere on this path. -/
def mkRegistryUnits (units_config : List UnitConf)
    (angle_min angle_max : Option ℝ) : List PanTiltUnit :=
  units_config.filterMap fun c =>
    match c.name, c.position, c.orientation with
    | some n, some p, some o =>
      some ⟨n, p, o, c.i2c_id, c.motors_id, angle_min, angle_max⟩
    | _, _, _ => none

/-! ## General lemmas -/

/-- The clamp-then-shift pipeline lands in the servo domain whenever the
configured bounds are ordered and lie in the signed quarter-turn range. -/
theorem transform_angle_to_servo_mem (a mn mx : ℝ) (h1 : mn ≤ mx)
    (h2 : -90 ≤ mn) (h3 : mx ≤ 90) :
    0 ≤ transform_angle_to_servo a mn mx ∧
      transform_angle_to_servo a mn mx ≤ 180 := by
  unfold transform_angle_to_servo map_to_servo_range apply_safety_limits
  constructor
  · linarith [le_max_left mn (min mx a)]
  · have h4 : max mn (min mx a) ≤ mx := max_le h1 (min_le_left mx a)
    linarith

/-- A message holding any malformed unit entry makes the whole extraction
fail, because the failure raises out of the building loop. -/
theorem extract_servos_data_malformed (units : List UnitMsg) (u : UnitMsg)
    (hu : u ∈ units) (hm : u.malformed) : extract_servos_data units = none := by
  induction units with
  | nil => exact absurd hu (List.not_mem_nil u)
  | cons v rest ih =>
    rcases List.mem_cons.mp hu with h | h
    · subst h
      obtain ⟨un, ui, um, up, ut⟩ := u
      cases un <;> cases ui <;> cases um <;> cases up <;> cases ut <;>
        simp_all [extract_servos_data, UnitMsg.malformed]
    · have ht := ih h
      obtain ⟨un, ui, um, up, ut⟩ := v
      cases un <;> cases ui <;> cases um <;> cases up <;> cases ut <;>
        simp_all [extract_servos_data]

/-- Transpose of the roll factor, written out. -/
theorem Rx_transpose (r : ℝ) : (R_x r).transpose =
    !![1, 0, 0;
       0, Real.cos r, Real.sin r;
       0, -Real.sin r, Real.cos r] := by
  ext i j
  fin_cases i <;> fin_cases j <;> rfl

/-- Transpose of the pitch factor, written out. -/
theorem Ry_transpose (p : ℝ) : (R_y p).transpose =
    !![Real.cos p, 0, -Real.sin p;
       0, 1, 0;
       Real.sin p, 0, Real.cos p] := by
  ext i j
  fin_cases i <;> fin_cases j <;> rfl

/-- Transpose of the yaw factor, written out. -/
theorem Rz_transpose (y : ℝ) : (R_z y).transpose =
    !![Real.cos y, Real.sin y, 0;
       -Real.sin y, Real.cos y, 0;
       0, 0, 1] := by
  ext i j
  fin_cases i <;> fin_cases j <;> rfl

/-- The roll factor is orthogonal. -/
theorem Rx_orth (r : ℝ) : (R_x r).transpose * R_x r = 1 := by
  have h := Real.sin_sq_add_cos_sq r
  rw [Rx_transpose, R_x, Matrix.mul_fin_three, Matrix.one_fin_three]
  ext i j
  fin_cases i <;> fin_cases j <;>
    simp [Matrix.vecHead, Matrix.vecTail] <;> nlinarith [h]

/-- The pitch factor is orthogonal. -/
theorem Ry_orth (p : ℝ) : (R_y p).transpose * R_y p = 1 := by
  have h := Real.sin_sq_add_cos_sq p
  rw [Ry_transpose, R_y, Matrix.mul_fin_three, Matrix.one_fin_three]
  ext i j
  fin_cases i <;> fin_cases j <;>
    simp [Matrix.vecHead, Matrix.vecTail] <;> nlinarith [h]

/-- The yaw factor is orthogonal. -/
theorem Rz_orth (y : ℝ) : (R_z y).transpose * R_z y = 1 := by
  have h := Real.sin_sq_add_cos_sq y
  rw [Rz_transpose, R_z, Matrix.mul_fin_three, Matrix.one_fin_three]
  ext i j
  fin_cases i <;> fin_cases j <;>
    simp [Matrix.vecHead, Matrix.vecTail] <;> nlinarith [h]

/-- The roll factor has determinant one. -/
theorem Rx_det (r : ℝ) : (R_x r).det = 1 := by
  have h := Real.sin_sq_add_cos_sq r
  rw [R_x, Matrix.det_fin_three]
  simp
  nlinarith [h]

/-- The pitch factor has determinant one. -/
theorem Ry_det (p : ℝ) : (R_y p).det = 1 := by
  have h := Real.sin_sq_add_cos_sq p
  rw [R_y, Matrix.det_fin_three]
  simp
  nlinarith [h]

/-- The yaw factor has determinant one. -/
theorem Rz_det (y : ℝ) : (R_z y).det = 1 := by
  have h := Real.sin_sq_add_cos_sq y
  rw [R_z, Matrix.det_fin_three]
  simp
  nlinarith [h]

/-- The composed rotation matrix is orthogonal: its transpose is a left
inverse. -/
theorem euler_orth (roll pitch yaw : ℝ) :
    (euler_to_rotation_matrix roll pitch yaw).transpose *
      euler_to_rotation_matrix roll pitch yaw = 1 := by
  have hx := Rx_orth (radians roll)
  have hy := Ry_orth (radians pitch)
  have hz := Rz_orth (radians yaw)
  unfold euler_to_rotation_matrix
  rw [Matrix.transpose_mul, Matrix.transpose_mul]
  simp only [Matrix.mul_assoc]
  rw [← Matrix.mul_assoc ((R_z (radians yaw)).transpose) (R_z (radians yaw)),
    hz, Matrix.one_mul,
    ← Matrix.mul_assoc ((R_y (radians pitch)).transpose) (R_y (radians pitch)),
    hy, Matrix.one_mul]
  exact hx

/-- The composed rotation matrix has determinant one. -/
theorem euler_det (roll pitch yaw : ℝ) :
    (euler_to_rotation_matrix roll pitch yaw).det = 1 := by
  unfold euler_to_rotation_matrix
  rw [Matrix.det_mul, Matrix.det_mul, Rx_det, Ry_det, Rz_det]
  norm_num

/-- Rotating a local offset into the world and transforming back through
transform_to_unit_frame recovers the offset. -/
theorem transform_to_unit_frame_recovers (roll pitch yaw : ℝ)
    (v p : Fin 3 → ℝ) :
    transform_to_unit_frame
        (p + (euler_to_rotation_matrix roll pitch yaw).mulVec v) p
        ![roll, pitch, yaw] = v := by
  unfold transform_to_unit_frame
  have h0 : (![roll, pitch, yaw] : Fin 3 → ℝ) 0 = roll := rfl
  have h1 : (![roll, pitch, yaw] : Fin 3 → ℝ) 1 = pitch := rfl
  have h2 : (![roll, pitch, yaw] : Fin 3 → ℝ) 2 = yaw := rfl
  rw [h0, h1, h2, add_sub_cancel_left, Matrix.mulVec_mulVec,
    euler_orth, Matrix.one_mulVec]

/-- The rotation matrix of the zero orientation is the identity. -/
theorem euler_zero_eq_one : euler_to_rotation_matrix 0 0 0 = 1 := by
  have hr : radians 0 = 0 := by
    unfold radians
    ring
  unfold euler_to_rotation_matrix
  rw [hr, R_x, R_y, R_z]
  norm_num [Matrix.mul_fin_three]
  exact Matrix.one_fin_three.symm

/-- The sensor-frame transform fixes the forward unit target. -/
theorem realsense_forward :
    transform_target_realsense_to_ro ![0, 0, 1] = ![0, 0, 1] := by
  funext i
  fin_cases i <;> simp [transform_target_realsense_to_ro]

/-- A unit at the origin with the zero orientation sees the forward target
at the forward local offset. -/
theorem transform_forward :
    transform_to_unit_frame ![0, 0, 1] ![0, 0, 0] ![0, 0, 0] = ![0, 0, 1] := by
  unfold transform_to_unit_frame
  have h0 : (![0, 0, 0] : Fin 3 → ℝ) 0 = 0 := rfl
  have h1 : (![0, 0, 0] : Fin 3 → ℝ) 1 = 0 := rfl
  have h2 : (![0, 0, 0] : Fin 3 → ℝ) 2 = 0 := rfl
  rw [h0, h1, h2, euler_zero_eq_one, Matrix.transpose_one]
  have hsub : (![0, 0, 1] - ![0, 0, 0] : Fin 3 → ℝ) = ![0, 0, 1] := by
    funext i
    fin_cases i <;> simp
  rw [hsub, Matrix.one_mulVec]

/-- The atan2 value always lies in the half-open interval from minus pi
exclusive to pi inclusive. -/
theorem atan2_mem_Ioc (y x : ℝ) : -Real.pi < atan2 y x ∧ atan2 y x ≤ Real.pi := by
  have hpi := Real.pi_pos
  have h1 := Real.arctan_lt_pi_div_two (y / x)
  have h2 := Real.neg_pi_div_two_lt_arctan (y / x)
  unfold atan2
  split_ifs with hx hneg hy hy2 hy3
  · exact ⟨by linarith, by linarith⟩
  · have hq : y / x ≤ 0 := div_nonpos_of_nonneg_of_nonpos hy hneg.le
    have h3 : Real.arctan (y / x) ≤ 0 := by
      rw [← Real.arctan_zero]
      exact Real.arctan_strictMono.monotone hq
    exact ⟨by linarith, by linarith⟩
  · have hy4 : y < 0 := lt_of_not_le hy
    have hq : 0 < y / x := div_pos_of_neg_of_neg hy4 hneg
    have h3 : 0 < Real.arctan (y / x) := by
      rw [← Real.arctan_zero]
      exact Real.arctan_strictMono hq
    exact ⟨by linarith, by linarith⟩
  · exact ⟨by linarith, by linarith⟩
  · exact ⟨by linarith, by linarith⟩
  · exact ⟨by linarith, by linarith⟩

/-- With a nonnegative second argument the atan2 value lies between minus
half pi and half pi. -/
theorem atan2_nonneg_x_mem (y x : ℝ) (hx : 0 ≤ x) :
    -(Real.pi / 2) ≤ atan2 y x ∧ atan2 y x ≤ Real.pi / 2 := by
  have hpi := Real.pi_pos
  have h1 := Real.arctan_lt_pi_div_two (y / x)
  have h2 := Real.neg_pi_div_two_lt_arctan (y / x)
  unfold atan2
  split_ifs with hx1 hneg hy hy2 hy3
  · exact ⟨h2.le, h1.le⟩
  · exact absurd hneg (not_lt.mpr hx)
  · exact absurd hneg (not_lt.mpr hx)
  · exact ⟨by linarith, le_refl _⟩
  · exact ⟨le_refl _, by linarith⟩
  · exact ⟨by linarith, by linarith⟩

/-- atan2 of the origin is zero, as in the Python library. -/
theorem atan2_zero_zero : atan2 0 0 = 0 := by
  unfold atan2
  norm_num

/-- atan2 of zero over a positive abscissa is zero. -/
theorem atan2_zero_pos (x : ℝ) (hx : 0 < x) : atan2 0 x = 0 := by
  unfold atan2
  rw [if_pos hx, zero_div, Real.arctan_zero]

/-- Conversion to degrees is monotone. -/
theorem degrees_le_of_le {a b : ℝ} (h : a ≤ b) : degrees a ≤ degrees b :=
  mul_le_mul_of_nonneg_right h (by positivity)

/-- Conversion to degrees is strictly monotone. -/
theorem degrees_lt_of_lt {a b : ℝ} (h : a < b) : degrees a < degrees b :=
  mul_lt_mul_of_pos_right h (by positivity)

/-- Half a turn is 180 degrees. -/
theorem degrees_pi : degrees Real.pi = 180 := by
  have h : Real.pi ≠ 0 := Real.pi_ne_zero
  field_simp [degrees]

/-- A quarter turn is 90 degrees. -/
theorem degrees_pi_div_two : degrees (Real.pi / 2) = 90 := by
  have h : Real.pi ≠ 0 := Real.pi_ne_zero
  field_simp [degrees]
  ring

/-- Conversion to degrees commutes with negation. -/
theorem degrees_neg (a : ℝ) : degrees (-a) = -degrees a := by
  unfold degrees
  ring

/-- Zero radians is zero degrees. -/
theorem degrees_zero : degrees 0 = 0 := zero_mul _

/-- A local offset pointing straight ahead yields zero pan and zero tilt. -/
theorem compute_pan_tilt_angles_forward (d : ℝ) (hd : 0 < d) :
    compute_pan_tilt_angles ![0, 0, d] = (0, 0) := by
  unfold compute_pan_tilt_angles
  have h0 : (![0, 0, d] : Fin 3 → ℝ) 0 = 0 := rfl
  have h1 : (![0, 0, d] : Fin 3 → ℝ) 1 = 0 := rfl
  have h2 : (![0, 0, d] : Fin 3 → ℝ) 2 = d := rfl
  rw [h0, h1, h2, atan2_zero_pos d hd, degrees_zero]
  have hs : Real.sqrt ((0 : ℝ) ^ 2 + d ^ 2) = d := by
    rw [show (0 : ℝ) ^ 2 + d ^ 2 = d ^ 2 by ring, Real.sqrt_sq hd.le]
  rw [hs, atan2_zero_pos d hd, degrees_zero]

/-- Full evaluation of the publish pipeline for one unit at the origin with
zero orientation, arbitrary numeric bounds and the forward target: both
published angles equal the servo mapping of the raw angle zero. -/
theorem compute_single_unit_forward (mn mx : ℝ) :
    compute_and_send_all_angles
        [⟨"u1", ![0, 0, 0], ![0, 0, 0], none, none, some mn, some mx⟩]
        ![0, 0, 1] =
      some ⟨[⟨"u1", none, none, transform_angle_to_servo 0 mn mx,
        transform_angle_to_servo 0 mn mx⟩]⟩ := by
  have hcp : compute_pan_tilt_angles
      (transform_to_unit_frame (transform_target_realsense_to_ro ![0, 0, 1])
        ![0, 0, 0] ![0, 0, 0]) = (0, 0) := by
    rw [realsense_forward, transform_forward]
    exact compute_pan_tilt_angles_forward 1 one_pos
  simp [compute_and_send_all_angles, unitEntry, PanTiltUnit.compute_angles, hcp]

/-- A published message holds exactly the entries collected from the
units. -/
theorem compute_and_send_units_eq (units : List PanTiltUnit)
    (target_rs : Fin 3 → ℝ) (msg : ControlMessage)
    (h : compute_and_send_all_angles units target_rs = some msg) :
    msg.units = units.filterMap
      (fun u => unitEntry u (transform_target_realsense_to_ro target_rs)) := by
  simp only [compute_and_send_all_angles] at h
  rcases hall : units.filterMap
      (fun u => unitEntry u (transform_target_realsense_to_ro target_rs)) with
    _ | ⟨d, ds⟩
  · rw [hall] at h
    exact absurd h (by simp)
  · rw [hall] at h
    simp only [Option.some_inj] at h
    rw [← h]

/-- Every collected entry is the servo mapping of the raw angles under the
bounds the unit carries, which are then necessarily numeric. -/
theorem unitEntry_angles (u : PanTiltUnit) (tp : Fin 3 → ℝ) (e : UnitData)
    (h : unitEntry u tp = some e) :
    ∃ mn mx : ℝ, u.angle_min = some mn ∧ u.angle_max = some mx ∧
      e.pan = transform_angle_to_servo
        (compute_pan_tilt_angles
          (transform_to_unit_frame tp u.position u.orientation)).1 mn mx ∧
      e.tilt = transform_angle_to_servo
        (compute_pan_tilt_angles
          (transform_to_unit_frame tp u.position u.orientation)).2 mn mx := by
  unfold unitEntry PanTiltUnit.compute_angles at h
  rcases hmn : u.angle_min with _ | mn <;> rcases hmx : u.angle_max with _ | mx <;>
    rw [hmn, hmx] at h <;> simp at h
  exact ⟨mn, mx, rfl, rfl, by rw [← h], by rw [← h]⟩

/-- A unit contributes an entry to the collected list exactly when it
succeeds. -/
theorem unitEntry_isSome_iff (u : PanTiltUnit) (tp : Fin 3 → ℝ) :
    (unitEntry u tp).isSome = true ↔ unitSucceeds u tp := by
  rcases e : u.compute_angles tp with ⟨x, y⟩
  cases x <;> cases y <;> simp [unitEntry, unitSucceeds, e]

/-- A unit contributes no entry exactly when it fails. -/
theorem unitEntry_eq_none_iff (u : PanTiltUnit) (tp : Fin 3 → ℝ) :
    unitEntry u tp = none ↔ ¬ unitSucceeds u tp := by
  rw [← unitEntry_isSome_iff, ← Option.not_isSome_iff_eq_none]

/-- An entry contributed by a unit carries that unit's name. -/
theorem unitEntry_name (u : PanTiltUnit) (tp : Fin 3 → ℝ) (d : UnitData)
    (h : unitEntry u tp = some d) : d.unit = u.name := by
  rcases e : u.compute_angles tp with ⟨x, y⟩
  cases x <;> cases y <;> simp_all [unitEntry]
  exact congrArg UnitData.unit h.symm

/-- Invariant of the loop of get_closest_face: starting from a current
closest face c, folding the loop body over the remaining list lands on
the first minimum of c followed by that list. -/
theorem foldl_closest_face (l : List (ℝ × ℝ × ℝ)) (c : ℝ × ℝ × ℝ) :
    ∃ x, l.foldl closest_face_step (some (faceDistance c), some c) =
        (some (faceDistance x), some x) ∧ IsFirstMin (c :: l) x := by
  induction l generalizing c with
  | nil =>
    refine ⟨c, rfl, ?_, [], [], rfl, ?_⟩
    · intro y hy
      simp only [List.mem_singleton] at hy
      rw [hy]
    · intro y hy
      exact absurd hy (List.not_mem_nil y)
  | cons f t ih =>
    rw [List.foldl_cons]
    by_cases hlt : faceDistance f < faceDistance c
    · have hstep : closest_face_step (some (faceDistance c), some c) f =
          (some (faceDistance f), some f) := by
        unfold closest_face_step
        simp [hlt]
      rw [hstep]
      obtain ⟨x, hx, hmin, pre, post, hdec, hpre⟩ := ih f
      have hxf : faceDistance x ≤ faceDistance f := hmin f (List.mem_cons_self f t)
      refine ⟨x, hx, ?_, c :: pre, post, ?_, ?_⟩
      · intro y hy
        rcases List.mem_cons.mp hy with rfl | hy2
        · exact (lt_of_le_of_lt hxf hlt).le
        · exact hmin y hy2
      · rw [List.cons_append, ← hdec]
      · intro y hy
        rcases List.mem_cons.mp hy with rfl | hy2
        · exact lt_of_le_of_lt hxf hlt
        · exact hpre y hy2
    · have hstep : closest_face_step (some (faceDistance c), some c) f =
          (some (faceDistance c), some c) := by
        unfold closest_face_step
        simp [hlt]
      rw [hstep]
      have hcf : faceDistance c ≤ faceDistance f := not_lt.mp hlt
      obtain ⟨x, hx, hmin, pre, post, hdec, hpre⟩ := ih c
      have hxc : faceDistance x ≤ faceDistance c := hmin c (List.mem_cons_self c t)
      have hmin2 : ∀ y ∈ c :: f :: t, faceDistance x ≤ faceDistance y := by
        intro y hy
        rcases List.mem_cons.mp hy with rfl | hy2
        · exact hxc
        rcases List.mem_cons.mp hy2 with rfl | hy3
        · exact le_trans hxc hcf
        · exact hmin y (List.mem_cons_of_mem c hy3)
      cases pre with
      | nil =>
        rw [List.nil_append] at hdec
        injection hdec with h1 h2
        refine ⟨x, hx, hmin2, [], f :: t, ?_, ?_⟩
        · rw [List.nil_append, ← h1]
        · intro y hy
          exact absurd hy (List.not_mem_nil y)
      | cons p0 pre2 =>
        rw [List.cons_append] at hdec
        injection hdec with h1 h2
        have hcpre : faceDistance x < faceDistance c := by
          apply hpre c
          rw [← h1]
          exact List.mem_cons_self c pre2
        refine ⟨x, hx, hmin2, c :: f :: pre2, post, ?_, ?_⟩
        · rw [h2]
          simp [List.cons_append]
        · intro y hy
          rcases List.mem_cons.mp hy with rfl | hy2
          · exact hcpre
          rcases List.mem_cons.mp hy2 with rfl | hy3
          · exact lt_of_lt_of_le hcpre hcf
          · exact hpre y (List.mem_cons_of_mem p0 hy3)

/-! ## Claim theorems -/

/-- Claim C6: for every raw angle and every pair of bounds with
angle_min at most angle_max and both within the range -90 to 90, the
result of transform_angle_to_servo lies in the closed range 0 to 180. -/
theorem C6_servo_range_contract (angle min_angle max_angle : ℝ)
    (hord : min_angle ≤ max_angle) (hlo : -90 ≤ min_angle)
    (hhi : max_angle ≤ 90) :
    0 ≤ transform_angle_to_servo angle min_angle max_angle ∧
      transform_angle_to_servo angle min_angle max_angle ≤ 180 :=
  transform_angle_to_servo_mem angle min_angle max_angle hord hlo hhi

/-- Concrete instance of claim C6 at angle 0 with bounds -90 and 90. -/
theorem C6_servo_range_contract_witness :
    ((-90 : ℝ) ≤ 90 ∧ (-90 : ℝ) ≤ -90 ∧ (90 : ℝ) ≤ 90) ∧
      (0 ≤ transform_angle_to_servo 0 (-90) 90 ∧
        transform_angle_to_servo 0 (-90) 90 ≤ 180) :=
  ⟨⟨by norm_num, by norm_num, by norm_num⟩,
    C6_servo_range_contract 0 (-90) 90 (by norm_num) (by norm_num) (by norm_num)⟩

/-- Claim C4: for the smooth-motion interpolation starting at current angle
0 with target 90 and step size 5, the computed micro-step count is 18,
the sequence of angles written to the servo is 5, 10, ..., 90, hence the
final written angle is exactly 90 and the written angles are strictly
increasing. The scenario is one pan servo and one tilt servo both moving
from 0 to 90, so the shared micro-step count is determined by this very
motion. -/
theorem C4_interpolation_convergence :
    smoothMaxSteps [0] [0] 90 90 5 = some 18 ∧
      smooth_transition_writes 0 90 18 =
        [5, 10, 15, 20, 25, 30, 35, 40, 45, 50,
         55, 60, 65, 70, 75, 80, 85, 90] ∧
      (smooth_transition_writes 0 90 18).getLast? = some 90 ∧
      List.Chain' (fun a b => a < b) (smooth_transition_writes 0 90 18) := by
  have hw : smooth_transition_writes 0 90 18 =
      [5, 10, 15, 20, 25, 30, 35, 40, 45, 50,
       55, 60, 65, 70, 75, 80, 85, 90] := by
    norm_num [smooth_transition_writes, set_servo_angle_clamp, List.range_succ]
  refine ⟨by norm_num [smoothMaxSteps, List.max?], hw, ?_, ?_⟩
  · rw [hw]
    rfl
  · rw [hw]
    norm_num [List.chain'_cons]

/-- Claim C7: a payload that fails to decode dispatches nothing, and a
decoded payload holding any unit entry with a missing required field is
dropped whole: on_message dispatches no servo command of it. -/
theorem C7_malformed_message_dropped :
    on_message none = none ∧
      ∀ units : List UnitMsg, (∃ u ∈ units, u.malformed) →
        on_message (some units) = none := by
  refine ⟨rfl, ?_⟩
  rintro units ⟨u, hu, hm⟩
  have h := extract_servos_data_malformed units u hu hm
  simp [on_message, h]

/-- Concrete instance of claim C7: a one-entry message missing the unit
name field dispatches nothing. -/
theorem C7_malformed_message_dropped_witness :
    (∃ u ∈ [(⟨none, some 1, some [0, 1], some 90, some 90⟩ : UnitMsg)],
        u.malformed) ∧
      on_message
        (some [(⟨none, some 1, some [0, 1], some 90, some 90⟩ : UnitMsg)]) =
        none := by
  have hmem : ∃ u ∈ [(⟨none, some 1, some [0, 1], some 90, some 90⟩ : UnitMsg)],
      u.malformed :=
    ⟨_, List.mem_singleton.mpr rfl, Or.inl rfl⟩
  exact ⟨hmem, C7_malformed_message_dropped.2 _ hmem⟩

/-- Refutation of claim C9 as stated: a configuration record with inverted
manager-wide bounds, angle_min 50 strictly above angle_max -50, is not
excluded from the registry; the constructed registry holds exactly this
unit, inverted bounds and all. -/
theorem C9_inverted_bounds_not_excluded :
    (50 : ℝ) > -50 ∧
      mkRegistryUnits
          [⟨some "u1", some ![0, 0, 0], some ![0, 0, 0], some 1, some [0, 1]⟩]
          (some 50) (some (-50)) =
        [⟨"u1", ![0, 0, 0], ![0, 0, 0], some 1, some [0, 1],
          some 50, some (-50)⟩] := by
  exact ⟨by norm_num, rfl⟩

/-- Claim C9 amended: registry construction never validates the bounds.
For every choice of bounds, inverted or not, a record with all required
fields present is registered, and a record missing a required field
(here the name) is the only one excluded: all other units still
register. -/
theorem C9_registry_exclusion (c1 c2 c3 : UnitConf)
    (angle_min angle_max : Option ℝ) (n1 : String) (p1 o1 : Fin 3 → ℝ)
    (n3 : String) (p3 o3 : Fin 3 → ℝ)
    (h1n : c1.name = some n1) (h1p : c1.position = some p1)
    (h1o : c1.orientation = some o1)
    (h2 : c2.name = none)
    (h3n : c3.name = some n3) (h3p : c3.position = some p3)
    (h3o : c3.orientation = some o3) :
    mkRegistryUnits [c1, c2, c3] angle_min angle_max =
      [⟨n1, p1, o1, c1.i2c_id, c1.motors_id, angle_min, angle_max⟩,
       ⟨n3, p3, o3, c3.i2c_id, c3.motors_id, angle_min, angle_max⟩] := by
  simp [mkRegistryUnits, h1n, h1p, h1o, h2, h3n, h3p, h3o]

/-- Concrete instance of claim C9 amended: three records, the middle one
missing its name, built with inverted bounds; the registry holds exactly
the first and third units. -/
theorem C9_registry_exclusion_witness :
    (⟨some "a", some ![0, 0, 0], some ![0, 0, 0], none, none⟩ :
        UnitConf).name = some "a" ∧
      (⟨none, some ![0, 0, 0], some ![0, 0, 0], none, none⟩ :
        UnitConf).name = none ∧
      mkRegistryUnits
          [⟨some "a", some ![0, 0, 0], some ![0, 0, 0], none, none⟩,
           ⟨none, some ![0, 0, 0], some ![0, 0, 0], none, none⟩,
           ⟨some "c", some ![0, 0, 0], some ![0, 0, 0], none, none⟩]
          (some 50) (some (-50)) =
        [⟨"a", ![0, 0, 0], ![0, 0, 0], none, none, some 50, some (-50)⟩,
         ⟨"c", ![0, 0, 0], ![0, 0, 0], none, none, some 50, some (-50)⟩] :=
  ⟨rfl, rfl,
    C9_registry_exclusion _ _ _ (some 50) (some (-50)) "a" ![0, 0, 0] ![0, 0, 0]
      "c" ![0, 0, 0] ![0, 0, 0] rfl rfl rfl rfl rfl rfl rfl⟩

/-- Claim C3: with three configured units of which exactly the second fails,
the published message holds exactly the entries of units one and three in
order; and in general a message is published precisely when at least one
unit succeeded. -/
theorem C3_partial_failure_isolation (u1 u2 u3 : PanTiltUnit)
    (target_rs : Fin 3 → ℝ)
    (h1 : unitSucceeds u1 (transform_target_realsense_to_ro target_rs))
    (h2 : ¬ unitSucceeds u2 (transform_target_realsense_to_ro target_rs))
    (h3 : unitSucceeds u3 (transform_target_realsense_to_ro target_rs)) :
    (∃ msg, compute_and_send_all_angles [u1, u2, u3] target_rs = some msg ∧
        msg.units.map (fun e => e.unit) = [u1.name, u3.name]) ∧
      ∀ (units : List PanTiltUnit) (t : Fin 3 → ℝ),
        (compute_and_send_all_angles units t).isSome = true ↔
          ∃ u ∈ units, unitSucceeds u (transform_target_realsense_to_ro t) := by
  constructor
  · obtain ⟨d1, hd1⟩ := Option.isSome_iff_exists.mp
      ((unitEntry_isSome_iff u1 (transform_target_realsense_to_ro target_rs)).mpr h1)
    obtain ⟨d3, hd3⟩ := Option.isSome_iff_exists.mp
      ((unitEntry_isSome_iff u3 (transform_target_realsense_to_ro target_rs)).mpr h3)
    have hn2 := (unitEntry_eq_none_iff u2
      (transform_target_realsense_to_ro target_rs)).mpr h2
    refine ⟨⟨[d1, d3]⟩, ?_, ?_⟩
    · simp [compute_and_send_all_angles, List.filterMap_cons, hd1, hn2, hd3]
    · simp [unitEntry_name u1 _ d1 hd1, unitEntry_name u3 _ d3 hd3]
  · intro units t
    rcases hall : units.filterMap
        (fun u => unitEntry u (transform_target_realsense_to_ro t)) with
      _ | ⟨d, ds⟩
    · have hnone : compute_and_send_all_angles units t = none := by
        simp [compute_and_send_all_angles, hall]
      rw [hnone]
      exact iff_of_false (by simp)
        (fun ⟨u, hu, hs⟩ => (unitEntry_eq_none_iff u _).mp
          (List.filterMap_eq_nil_iff.mp hall u hu) hs)
    · have hsome : compute_and_send_all_angles units t = some ⟨d :: ds⟩ := by
        simp [compute_and_send_all_angles, hall]
      rw [hsome]
      have hmem : d ∈ units.filterMap
          (fun u => unitEntry u (transform_target_realsense_to_ro t)) := by
        rw [hall]; exact List.mem_cons_self d ds
      obtain ⟨u, hu, hf⟩ := List.mem_filterMap.mp hmem
      exact iff_of_true rfl ⟨u, hu, (unitEntry_isSome_iff u _).mp (by rw [hf]; rfl)⟩

/-- Concrete instance of claim C3: units u1 and u3 carry numeric bounds and
succeed, unit u2 carries the default bound None of a malformed
calibration and fails; the message holds exactly u1 and u3. -/
theorem C3_partial_failure_isolation_witness :
    (unitSucceeds
        ⟨"u1", ![0, 0, 0], ![0, 0, 0], none, none, some (-90), some 90⟩
        (transform_target_realsense_to_ro ![0, 0, 1]) ∧
      ¬ unitSucceeds
        ⟨"u2", ![0, 0, 0], ![0, 0, 0], none, none, none, some 90⟩
        (transform_target_realsense_to_ro ![0, 0, 1]) ∧
      unitSucceeds
        ⟨"u3", ![0, 0, 0], ![0, 0, 0], none, none, some (-90), some 90⟩
        (transform_target_realsense_to_ro ![0, 0, 1])) ∧
      ((∃ msg, compute_and_send_all_angles
            [⟨"u1", ![0, 0, 0], ![0, 0, 0], none, none, some (-90), some 90⟩,
             ⟨"u2", ![0, 0, 0], ![0, 0, 0], none, none, none, some 90⟩,
             ⟨"u3", ![0, 0, 0], ![0, 0, 0], none, none, some (-90), some 90⟩]
            ![0, 0, 1] = some msg ∧
          msg.units.map (fun e => e.unit) = ["u1", "u3"]) ∧
        ∀ (units : List PanTiltUnit) (t : Fin 3 → ℝ),
          (compute_and_send_all_angles units t).isSome = true ↔
            ∃ u ∈ units, unitSucceeds u (transform_target_realsense_to_ro t)) := by
  have h1 : unitSucceeds
      ⟨"u1", ![0, 0, 0], ![0, 0, 0], none, none, some (-90), some 90⟩
      (transform_target_realsense_to_ro ![0, 0, 1]) := ⟨rfl, rfl⟩
  have h2 : ¬ unitSucceeds
      ⟨"u2", ![0, 0, 0], ![0, 0, 0], none, none, none, some 90⟩
      (transform_target_realsense_to_ro ![0, 0, 1]) := by
    rintro ⟨ha, -⟩
    simp [unitSucceeds, PanTiltUnit.compute_angles] at ha
  have h3 : unitSucceeds
      ⟨"u3", ![0, 0, 0], ![0, 0, 0], none, none, some (-90), some 90⟩
      (transform_target_realsense_to_ro ![0, 0, 1]) := ⟨rfl, rfl⟩
  exact ⟨⟨h1, h2, h3⟩, C3_partial_failure_isolation _ _ _ _ h1 h2 h3⟩

/-- Claim C8: compute_pan_tilt_angles returns the degree conversions of
atan2 of x over z and of atan2 of y over the horizontal norm; the pan
angle always lies in the half-open range -180 exclusive to 180
inclusive, the tilt angle always lies in the closed range -90 to 90,
and a target with x and z both zero yields pan equal to 0. -/
theorem C8_compute_pan_tilt_angles_spec (v : Fin 3 → ℝ) :
    compute_pan_tilt_angles v =
        (degrees (atan2 (v 0) (v 2)),
         degrees (atan2 (v 1) (Real.sqrt ((v 0) ^ 2 + (v 2) ^ 2)))) ∧
      (-180 < (compute_pan_tilt_angles v).1 ∧
        (compute_pan_tilt_angles v).1 ≤ 180) ∧
      (-90 ≤ (compute_pan_tilt_angles v).2 ∧
        (compute_pan_tilt_angles v).2 ≤ 90) ∧
      (v 0 = 0 ∧ v 2 = 0 → (compute_pan_tilt_angles v).1 = 0) := by
  refine ⟨rfl, ⟨?_, ?_⟩, ⟨?_, ?_⟩, ?_⟩
  · obtain ⟨hl, -⟩ := atan2_mem_Ioc (v 0) (v 2)
    have := degrees_lt_of_lt hl
    rwa [degrees_neg, degrees_pi] at this
  · obtain ⟨-, hu⟩ := atan2_mem_Ioc (v 0) (v 2)
    have := degrees_le_of_le hu
    rwa [degrees_pi] at this
  · obtain ⟨hl, -⟩ := atan2_nonneg_x_mem (v 1)
      (Real.sqrt ((v 0) ^ 2 + (v 2) ^ 2)) (Real.sqrt_nonneg _)
    have := degrees_le_of_le hl
    rwa [degrees_neg, degrees_pi_div_two] at this
  · obtain ⟨-, hu⟩ := atan2_nonneg_x_mem (v 1)
      (Real.sqrt ((v 0) ^ 2 + (v 2) ^ 2)) (Real.sqrt_nonneg _)
    have := degrees_le_of_le hu
    rwa [degrees_pi_div_two] at this
  · rintro ⟨h0, h2⟩
    show degrees (atan2 (v 0) (v 2)) = 0
    rw [h0, h2, atan2_zero_zero, degrees_zero]

/-- Concrete instance of claim C8 at the origin offset: pan is 0. -/
theorem C8_compute_pan_tilt_angles_spec_witness :
    ((![0, 0, 0] : Fin 3 → ℝ) 0 = 0 ∧ (![0, 0, 0] : Fin 3 → ℝ) 2 = 0) ∧
      (compute_pan_tilt_angles ![0, 0, 0]).1 = 0 :=
  ⟨⟨rfl, rfl⟩,
    (C8_compute_pan_tilt_angles_spec ![0, 0, 0]).2.2.2 ⟨rfl, rfl⟩⟩

/-- Claim C10: the rotation matrix built from any Euler angles is orthogonal
with determinant one, and the transpose multiplication performed by
transform_to_unit_frame exactly inverts the rotation: rotating any
offset into the world frame and transforming back recovers the offset. -/
theorem C10_rotation_matrix_orthogonal (roll pitch yaw : ℝ) :
    (euler_to_rotation_matrix roll pitch yaw).transpose *
        euler_to_rotation_matrix roll pitch yaw = 1 ∧
      (euler_to_rotation_matrix roll pitch yaw).det = 1 ∧
      ∀ v p : Fin 3 → ℝ,
        transform_to_unit_frame
            (p + (euler_to_rotation_matrix roll pitch yaw).mulVec v) p
            ![roll, pitch, yaw] = v :=
  ⟨euler_orth roll pitch yaw, euler_det roll pitch yaw,
    fun v p => transform_to_unit_frame_recovers roll pitch yaw v p⟩

/-- Claim C2: a target placed at a unit's position offset by the rotated
pure forward vector of positive length d transforms to the local offset
(0, 0, d), whose pan and tilt angles are both zero, for every unit
position and orientation. -/
theorem C2_target_ahead_yields_zero_angles (p : Fin 3 → ℝ)
    (roll pitch yaw d : ℝ) (hd : 0 < d) :
    compute_pan_tilt_angles
        (transform_to_unit_frame
          (p + (euler_to_rotation_matrix roll pitch yaw).mulVec ![0, 0, d]) p
          ![roll, pitch, yaw]) = (0, 0) := by
  rw [transform_to_unit_frame_recovers]
  exact compute_pan_tilt_angles_forward d hd

/-- Concrete instance of claim C2 with the unit at the origin, zero Euler
angles and distance one. -/
theorem C2_target_ahead_yields_zero_angles_witness :
    (0 : ℝ) < 1 ∧
      compute_pan_tilt_angles
          (transform_to_unit_frame
            ((![0, 0, 0] : Fin 3 → ℝ) +
              (euler_to_rotation_matrix 0 0 0).mulVec ![0, 0, 1])
            ![0, 0, 0] ![0, 0, 0]) = (0, 0) :=
  ⟨by norm_num,
    C2_target_ahead_yields_zero_angles ![0, 0, 0] 0 0 0 1 (by norm_num)⟩

/-- Refutation of claim C1 as stated: with upstream clamp bounds configured
as 100 to 150, the published message for a forward target carries pan
and tilt values of 190, which exceeds the actuator bound 180. -/
theorem C1_published_angle_exceeds_range :
    compute_and_send_all_angles
        [⟨"u1", ![0, 0, 0], ![0, 0, 0], none, none, some 100, some 150⟩]
        ![0, 0, 1] =
      some ⟨[⟨"u1", none, none, 190, 190⟩]⟩ ∧
      ¬ ((190 : ℝ) ≤ 180) := by
  constructor
  · rw [compute_single_unit_forward 100 150]
    norm_num [transform_angle_to_servo, map_to_servo_range,
      apply_safety_limits, min_def, max_def]
  · norm_num

/-- Claim C1 amended: provided every unit's configured bounds are ordered
and lie within -90 to 90, every pan and tilt value of a published
message lies in the closed actuator range 0 to 180. -/
theorem C1_published_angles_within_range (units : List PanTiltUnit)
    (target_rs : Fin 3 → ℝ)
    (hb : ∀ u ∈ units, ∀ mn mx : ℝ,
      u.angle_min = some mn → u.angle_max = some mx →
        mn ≤ mx ∧ -90 ≤ mn ∧ mx ≤ 90)
    (msg : ControlMessage)
    (hmsg : compute_and_send_all_angles units target_rs = some msg) :
    ∀ e ∈ msg.units,
      (0 ≤ e.pan ∧ e.pan ≤ 180) ∧ (0 ≤ e.tilt ∧ e.tilt ≤ 180) := by
  intro e he
  rw [compute_and_send_units_eq units target_rs msg hmsg] at he
  obtain ⟨u, hu, hf⟩ := List.mem_filterMap.mp he
  obtain ⟨mn, mx, hmn, hmx, hpan, htilt⟩ := unitEntry_angles u _ e hf
  obtain ⟨h1, h2, h3⟩ := hb u hu mn mx hmn hmx
  constructor
  · rw [hpan]
    exact transform_angle_to_servo_mem _ mn mx h1 h2 h3
  · rw [htilt]
    exact transform_angle_to_servo_mem _ mn mx h1 h2 h3

/-- Concrete instance of claim C1 amended: bounds -90 to 90 produce a
message whose angles are 90 and 90, within the actuator range. -/
theorem C1_published_angles_within_range_witness :
    (∀ u ∈ [(⟨"u1", ![0, 0, 0], ![0, 0, 0], none, none,
          some (-90), some 90⟩ : PanTiltUnit)],
        ∀ mn mx : ℝ, u.angle_min = some mn → u.angle_max = some mx →
          mn ≤ mx ∧ -90 ≤ mn ∧ mx ≤ 90) ∧
      compute_and_send_all_angles
          [⟨"u1", ![0, 0, 0], ![0, 0, 0], none, none, some (-90), some 90⟩]
          ![0, 0, 1] =
        some ⟨[⟨"u1", none, none, 90, 90⟩]⟩ ∧
      ∀ e ∈ (⟨[⟨"u1", none, none, 90, 90⟩]⟩ : ControlMessage).units,
        (0 ≤ e.pan ∧ e.pan ≤ 180) ∧ (0 ≤ e.tilt ∧ e.tilt ≤ 180) := by
  have hb : ∀ u ∈ [(⟨"u1", ![0, 0, 0], ![0, 0, 0], none, none,
      some (-90), some 90⟩ : PanTiltUnit)],
      ∀ mn mx : ℝ, u.angle_min = some mn → u.angle_max = some mx →
        mn ≤ mx ∧ -90 ≤ mn ∧ mx ≤ 90 := by
    rintro u hu mn mx hmn hmx
    simp only [List.mem_singleton] at hu
    subst hu
    simp only [Option.some_inj] at hmn hmx
    rw [← hmn, ← hmx]
    norm_num
  have hmsg : compute_and_send_all_angles
      [⟨"u1", ![0, 0, 0], ![0, 0, 0], none, none, some (-90), some 90⟩]
      ![0, 0, 1] = some ⟨[⟨"u1", none, none, 90, 90⟩]⟩ := by
    rw [compute_single_unit_forward (-90) 90]
    norm_num [transform_angle_to_servo, map_to_servo_range,
      apply_safety_limits, min_def, max_def]
  exact ⟨hb, hmsg, C1_published_angles_within_range _ _ hb _ hmsg⟩

/-- Claim C5: get_closest_face returns none on the empty collection; on any
non-empty list it returns the first element attaining the minimum
Euclidean distance from the origin; and on the list (3,0,0), (1,0,0),
(2,0,0) it returns (1,0,0). -/
theorem C5_get_closest_face_spec :
    get_closest_face [] = none ∧
      (∀ l : List (ℝ × ℝ × ℝ), l ≠ [] →
        ∃ x, get_closest_face l = some x ∧ IsFirstMin l x) ∧
      get_closest_face [(3, 0, 0), (1, 0, 0), (2, 0, 0)] = some (1, 0, 0) := by
  refine ⟨rfl, ?_, ?_⟩
  · intro l hl
    cases l with
    | nil => exact absurd rfl hl
    | cons f t =>
      have hinit : closest_face_step (none, none) f =
          (some (faceDistance f), some f) := rfl
      obtain ⟨x, hx, hfm⟩ := foldl_closest_face t f
      refine ⟨x, ?_, hfm⟩
      show ((f :: t).foldl closest_face_step (none, none)).2 = some x
      rw [List.foldl_cons, hinit, hx]
  · have h13 : faceDistance ((1 : ℝ), (0 : ℝ), (0 : ℝ)) <
        faceDistance ((3 : ℝ), (0 : ℝ), (0 : ℝ)) := by
      unfold faceDistance
      exact Real.sqrt_lt_sqrt (by norm_num) (by norm_num)
    have h21 : ¬ (faceDistance ((2 : ℝ), (0 : ℝ), (0 : ℝ)) <
        faceDistance ((1 : ℝ), (0 : ℝ), (0 : ℝ))) := by
      apply not_lt.mpr
      unfold faceDistance
      exact Real.sqrt_le_sqrt (by norm_num)
    have s1 : closest_face_step (none, none) ((3 : ℝ), (0 : ℝ), (0 : ℝ)) =
        (some (faceDistance (3, 0, 0)), some (3, 0, 0)) := rfl
    have s2 : closest_face_step
        (some (faceDistance ((3 : ℝ), (0 : ℝ), (0 : ℝ))), some (3, 0, 0))
        (1, 0, 0) = (some (faceDistance (1, 0, 0)), some (1, 0, 0)) := by
      show (if faceDistance ((1 : ℝ), (0 : ℝ), (0 : ℝ)) <
            faceDistance ((3 : ℝ), (0 : ℝ), (0 : ℝ)) then
          ((some (faceDistance ((1 : ℝ), (0 : ℝ), (0 : ℝ))),
            some ((1 : ℝ), (0 : ℝ), (0 : ℝ))) : Option ℝ × Option (ℝ × ℝ × ℝ))
        else
          (some (faceDistance ((3 : ℝ), (0 : ℝ), (0 : ℝ))),
            some ((3 : ℝ), (0 : ℝ), (0 : ℝ)))) =
        (some (faceDistance ((1 : ℝ), (0 : ℝ), (0 : ℝ))),
          some ((1 : ℝ), (0 : ℝ), (0 : ℝ)))
      rw [if_pos h13]
    have s3 : closest_face_step
        (some (faceDistance ((1 : ℝ), (0 : ℝ), (0 : ℝ))), some (1, 0, 0))
        (2, 0, 0) = (some (faceDistance (1, 0, 0)), some (1, 0, 0)) := by
      show (if faceDistance ((2 : ℝ), (0 : ℝ), (0 : ℝ)) <
            faceDistance ((1 : ℝ), (0 : ℝ), (0 : ℝ)) then
          ((some (faceDistance ((2 : ℝ), (0 : ℝ), (0 : ℝ))),
            some ((2 : ℝ), (0 : ℝ), (0 : ℝ))) : Option ℝ × Option (ℝ × ℝ × ℝ))
        else
          (some (faceDistance ((1 : ℝ), (0 : ℝ), (0 : ℝ))),
            some ((1 : ℝ), (0 : ℝ), (0 : ℝ)))) =
        (some (faceDistance ((1 : ℝ), (0 : ℝ), (0 : ℝ))),
          some ((1 : ℝ), (0 : ℝ), (0 : ℝ)))
      rw [if_neg h21]
    show (([(3, 0, 0), (1, 0, 0), (2, 0, 0)] : List (ℝ × ℝ × ℝ)).foldl
        closest_face_step (none, none)).2 = some (1, 0, 0)
    rw [List.foldl_cons, s1, List.foldl_cons, s2, List.foldl_cons, s3,
      List.foldl_nil]

/-- Concrete instance of claim C5 on the three-point list of the claim. -/
theorem C5_get_closest_face_spec_witness :
    ([( (3 : ℝ), (0 : ℝ), (0 : ℝ)), (1, 0, 0), (2, 0, 0)] ≠
        ([] : List (ℝ × ℝ × ℝ))) ∧
      ∃ x, get_closest_face [((3 : ℝ), (0 : ℝ), (0 : ℝ)), (1, 0, 0), (2, 0, 0)] =
          some x ∧ IsFirstMin [(3, 0, 0), (1, 0, 0), (2, 0, 0)] x :=
  ⟨by simp,
    C5_get_closest_face_spec.2.1 [(3, 0, 0), (1, 0, 0), (2, 0, 0)] (by simp)⟩

end DesignMirror
